import Mathlib

set_option maxRecDepth 10000

/-!
Verification of the Kinesis Video Streams put-media client
(`kvs_client.py`, `main.py`): the SigV4 signer, the canonical request
builder, endpoint host/region extraction, the chunked body producer and
the response-line parser, each embedded from the Python source.
-/

namespace Spec2Proof

/-! ## Bytes, UTF-8 and Python string primitives -/

/-- Bytes are modelled as natural numbers; every byte produced below is
less than 256. -/
abbrev Byte := Nat

/-- Standard UTF-8 encoding of one Unicode scalar value, as Python's
`str.encode("utf-8")` produces for a single character. -/
def utf8EncodeChar (c : Nat) : List Byte :=
  if c < 128 then [c]
  else if c < 2048 then [192 + c / 64, 128 + c % 64]
  else if c < 65536 then [224 + c / 4096, 128 + c / 64 % 64, 128 + c % 64]
  else [240 + c / 262144, 128 + c / 4096 % 64, 128 + c / 64 % 64, 128 + c % 64]

/-- Python `s.encode("utf-8")`: the UTF-8 bytes of a string. -/
def utf8 (s : String) : List Byte :=
  (s.data.map (fun c => utf8EncodeChar c.toNat)).flatten

/-- Python `s.split(sep)` for a one-character separator, on the character
list of the string. Every `split` in the source uses a one-character
separator. -/
def splitChar (sep : Char) : List Char → List (List Char)
  | [] => [[]]
  | c :: cs =>
    match splitChar sep cs with
    | [] => [[]]
    | p :: ps => if c = sep then [] :: p :: ps else (c :: p) :: ps

/-- Python `s.split(sep)` for a one-character separator. -/
def pySplit (s : String) (sep : Char) : List String :=
  (splitChar sep s.data).map List.asString

/-- Python `s.startswith(pre)`. -/
def pyStartsWith (s pre : String) : Bool :=
  pre.data.isPrefixOf s.data

/-- Python `s[n:]` (slicing counts code points, as Lean counts characters). -/
def pyDrop (s : String) (n : Nat) : String :=
  (s.data.drop n).asString

/-- Python `sep.join(xs)`. -/
def pyJoin (sep : String) : List String → String
  | [] => ""
  | [x] => x
  | x :: y :: xs => x ++ sep ++ pyJoin sep (y :: xs)

/-! ## SHA-256 (FIPS 180-4), executable over byte lists -/

/-- Truncation to a 32-bit word. -/
def w32 (n : Nat) : Nat := n % 4294967296

/-- 32-bit rotate right. -/
def rotr (n x : Nat) : Nat := w32 ((x >>> n) ||| (x <<< (32 - n)))

def bigSigma0 (x : Nat) : Nat := rotr 2 x ^^^ rotr 13 x ^^^ rotr 22 x

def bigSigma1 (x : Nat) : Nat := rotr 6 x ^^^ rotr 11 x ^^^ rotr 25 x

def smallSigma0 (x : Nat) : Nat := rotr 7 x ^^^ rotr 18 x ^^^ (x >>> 3)

def smallSigma1 (x : Nat) : Nat := rotr 17 x ^^^ rotr 19 x ^^^ (x >>> 10)

/-- The 64 SHA-256 round constants. -/
def shaK : List Nat :=
  [1116352408, 1899447441, 3049323471, 3921009573, 961987163, 1508970993,
   2453635748, 2870763221, 3624381080, 310598401, 607225278, 1426881987,
   1925078388, 2162078206, 2614888103, 3248222580, 3835390401, 4022224774,
   264347078, 604807628, 770255983, 1249150122, 1555081692, 1996064986,
   2554220882, 2821834349, 2952996808, 3210313671, 3336571891, 3584528711,
   113926993, 338241895, 666307205, 773529912, 1294757372, 1396182291,
   1695183700, 1986661051, 2177026350, 2456956037, 2730485921, 2820302411,
   3259730800, 3345764771, 3516065817, 3600352804, 4094571909, 275423344,
   430227734, 506948616, 659060556, 883997877, 958139571, 1322822218,
   1537002063, 1747873779, 1955562222, 2024104815, 2227730452, 2361852424,
   2428436474, 2756734187, 3204031479, 3329325298]

/-- The SHA-256 initial hash state. -/
def shaH0 : List Nat :=
  [1779033703, 3144134277, 1013904242, 2773480762, 1359893119, 2600822924,
   528734635, 1541459225]

/-- Big-endian bytes of a number, to a fixed width. -/
def beBytes : Nat → Nat → List Byte
  | 0, _ => []
  | k + 1, n => beBytes k (n / 256) ++ [n % 256]

/-- SHA-256 message padding: a 0x80 byte, zeros to 56 mod 64, then the
bit length in 8 big-endian bytes. -/
def sha256Pad (msg : List Byte) : List Byte :=
  msg ++ [128] ++ List.replicate ((119 - msg.length % 64) % 64) 0
      ++ beBytes 8 (msg.length * 8)

/-- Group bytes into big-endian 32-bit words. -/
def toWords : List Byte → List Nat
  | b0 :: b1 :: b2 :: b3 :: rest =>
      (((b0 * 256 + b1) * 256 + b2) * 256 + b3) :: toWords rest
  | _ => []

/-- Message-schedule extension, on the reversed word list (most recent
word first). -/
def scheduleRev : Nat → List Nat → List Nat
  | 0, ws => ws
  | n + 1, ws =>
      scheduleRev n (w32 (smallSigma1 (ws.getD 1 0) + ws.getD 6 0 +
        smallSigma0 (ws.getD 14 0) + ws.getD 15 0) :: ws)

/-- The 64-word message schedule of one 64-byte block. -/
def schedule (block : List Byte) : List Nat :=
  (scheduleRev 48 (toWords block).reverse).reverse

/-- One SHA-256 compression round on the state [a,b,c,d,e,f,g,h]. -/
def compressRound (st : List Nat) (k w : Nat) : List Nat :=
  match st with
  | [a, b, c, d, e, f, g, h] =>
      let ch := (e &&& f) ^^^ ((e ^^^ 4294967295) &&& g)
      let temp1 := w32 (h + bigSigma1 e + ch + k + w)
      let maj := (a &&& b) ^^^ (a &&& c) ^^^ (b &&& c)
      let temp2 := w32 (bigSigma0 a + maj)
      [w32 (temp1 + temp2), a, b, c, w32 (d + temp1), e, f, g]
  | _ => st

/-- All 64 compression rounds. -/
def compressRounds : List Nat → List Nat → List Nat → List Nat
  | st, k :: ks, w :: ws => compressRounds (compressRound st k w) ks ws
  | st, _, _ => st

/-- Process one 64-byte block into the running hash state. -/
def processBlock (h : List Nat) (block : List Byte) : List Nat :=
  List.zipWith (fun x y => w32 (x + y)) h (compressRounds h shaK (schedule block))

/-- Split a byte list into 64-byte blocks (the first argument is fuel). -/
def group64 : Nat → List Byte → List (List Byte)
  | 0, _ => []
  | _, [] => []
  | fuel + 1, l => l.take 64 :: group64 fuel (l.drop 64)

/-- SHA-256 of a byte list, as 32 digest bytes. -/
def sha256 (msg : List Byte) : List Byte :=
  let padded := sha256Pad msg
  (((group64 padded.length padded).foldl processBlock shaH0).map (beBytes 4)).flatten

/-- One lower-case hex digit. -/
def hexDigitChar (n : Nat) : Char :=
  if n < 10 then Char.ofNat (48 + n) else Char.ofNat (87 + n)

/-- Lower-case hex string of a byte list, as Python's `hexdigest`. -/
def bytesToHex (bs : List Byte) : String :=
  ((bs.map (fun b => [hexDigitChar (b / 16), hexDigitChar (b % 16)])).flatten).asString

/-- `hashlib.sha256(bs).hexdigest()`. -/
def sha256Hex (bs : List Byte) : String := bytesToHex (sha256 bs)

/-- HMAC-SHA256 (RFC 2104), as Python's
`hmac.new(key, msg, hashlib.sha256).digest()`. -/
def hmacSha256 (key msg : List Byte) : List Byte :=
  let k1 := if 64 < key.length then sha256 key else key
  let k0 := k1 ++ List.replicate (64 - k1.length) 0
  sha256 ((k0.map (fun b => b ^^^ 92)) ++ sha256 ((k0.map (fun b => b ^^^ 54)) ++ msg))

/-- `hmac.new(key, msg, hashlib.sha256).hexdigest()`. -/
def hmacSha256Hex (key msg : List Byte) : String := bytesToHex (hmacSha256 key msg)

/-! ## Python exceptions raised by the client -/

/-- The Python exceptions the embedded paths can raise: `ValueError` from
endpoint parsing, `IndexError` from the region label lookup, and a botocore
`ClientError` carrying its error code. -/
inductive PyError where
  | valueError (msg : String)
  | indexError
  | clientError (code : String)
deriving DecidableEq

/-! ## kvs_client.py -/

namespace KvsClient

/-- `KvsClient.sign`: `hmac.new(key, msg.encode("utf-8"), hashlib.sha256).digest()`. -/
def sign (key : List Byte) (msg : String) : List Byte :=
  hmacSha256 key (utf8 msg)

/-- `KvsClient.get_signature_key`: the four chained HMAC-SHA256 calls. -/
def get_signature_key (key date_stamp region_name service_name : String) : List Byte :=
  let key_date := sign (utf8 ("AWS4" ++ key)) date_stamp
  let key_region := sign key_date region_name
  let key_service := sign key_region service_name
  sign key_service "aws4_request"

/-- `KvsClient.get_host_from_endpoint`: require the `https://` scheme
prefix (else `ValueError`), then return the rest of the string. -/
def get_host_from_endpoint (endpoint : String) : Except PyError String :=
  if pyStartsWith endpoint "https://" then .ok (pyDrop endpoint 8)
  else .error (.valueError "Endpoint must start with https://")

/-- `KvsClient._get_region_from_endpoint`: require the `https://` prefix
(else `ValueError`), then take label `[2]` of the dot-split host (a Python
`IndexError` if there are fewer than three labels). -/
def get_region_from_endpoint (endpoint : String) : Except PyError String :=
  if pyStartsWith endpoint "https://" then
    match (pySplit (pyDrop endpoint 8) '.').get? 2 with
    | some r => .ok r
    | none => .error .indexError
  else .error (.valueError "Endpoint must start with https://")

/-- The fixed `user-agent` value sent by the client. -/
def user_agent : String :=
  "AWS-SDK-KVS/2.0.2 GCC/7.4.0 Linux/4.15.0-46-generic x86_64"

/-- The ten canonical header lines of `_generate_headers`, in emission
order. -/
def canonical_headers_lines (host amz_date start_timestamp stream_name : String) :
    List String :=
  ["connection:keep-alive",
   "content-type:application/json",
   "host:" ++ host,
   "transfer-encoding:chunked",
   "user-agent:AWS-SDK-KVS/2.0.2 GCC/7.4.0 Linux/4.15.0-46-generic x86_64",
   "x-amz-date:" ++ amz_date,
   "x-amzn-fragment-acknowledgment-required:1",
   "x-amzn-fragment-timecode-type:ABSOLUTE",
   "x-amzn-producer-start-timestamp:" ++ start_timestamp,
   "x-amzn-stream-name:" ++ stream_name]

/-- `canonical_headers` of `_generate_headers`: the newline-joined lines
plus a trailing newline. -/
def canonical_headers (host amz_date start_timestamp stream_name : String) : String :=
  pyJoin "\n" (canonical_headers_lines host amz_date start_timestamp stream_name) ++ "\n"

/-- The ten signed header names, in the order the source lists them. -/
def signed_headers_list : List String :=
  ["connection", "content-type", "host", "transfer-encoding", "user-agent",
   "x-amz-date", "x-amzn-fragment-acknowledgment-required",
   "x-amzn-fragment-timecode-type", "x-amzn-producer-start-timestamp",
   "x-amzn-stream-name"]

/-- `signed_headers` of `_generate_headers`: the semicolon-joined names. -/
def signed_headers : String := pyJoin ";" signed_headers_list

def canonical_uri : String := "/putMedia"

def canonical_querystring : String := ""

def algorithm : String := "AWS4-HMAC-SHA256"

def kinesis_video_service_name : String := "kinesisvideo"

/-- `canonical_request` of `_generate_headers`: the newline-join of method,
URI, query string, canonical headers, signed headers and the hex digest of
the empty body. -/
def canonical_request (host stream_name amz_date start_timestamp : String) : String :=
  pyJoin "\n"
    ["POST", canonical_uri, canonical_querystring,
     canonical_headers host amz_date start_timestamp stream_name,
     signed_headers,
     sha256Hex (utf8 "")]

/-- `credential_scope` of `_generate_headers`. -/
def credential_scope (date_stamp region : String) : String :=
  pyJoin "/" [date_stamp, region, kinesis_video_service_name, "aws4_request"]

/-- `string_to_sign` of `_generate_headers`. -/
def string_to_sign (amz_date scope hashed_canonical_request : String) : String :=
  pyJoin "\n" [algorithm, amz_date, scope, hashed_canonical_request]

end KvsClient

/-! ## The captured instant and `strftime` -/

/-- The single UTC instant `datetime.datetime.utcnow()` captured at the top
of `_generate_headers`. -/
structure UTCTime where
  year : Nat
  month : Nat
  day : Nat
  hour : Nat
  minute : Nat
  second : Nat
deriving DecidableEq

/-- Two-digit zero padding, as `strftime` `%m`, `%d`, `%H`, `%M`, `%S`. -/
def pad2 (n : Nat) : String :=
  if n < 10 then "0" ++ toString n else toString n

/-- Four-digit zero padding, as `strftime` `%Y`. -/
def pad4 (n : Nat) : String :=
  if n < 10 then "000" ++ toString n
  else if n < 100 then "00" ++ toString n
  else if n < 1000 then "0" ++ toString n
  else toString n

/-- `t.strftime("%Y%m%dT%H%M%SZ")`. -/
def strftimeAmzDate (t : UTCTime) : String :=
  pad4 t.year ++ pad2 t.month ++ pad2 t.day ++ "T"
    ++ pad2 t.hour ++ pad2 t.minute ++ pad2 t.second ++ "Z"

/-- `t.strftime("%Y%m%d")`. -/
def strftimeDateStamp (t : UTCTime) : String :=
  pad4 t.year ++ pad2 t.month ++ pad2 t.day

namespace KvsClient

/-- Everything `_generate_headers` computes: the returned header dict (in
insertion order) together with its local signing artefacts, exposed so the
theorems can relate them. -/
structure GeneratedRequest where
  headers : List (String × String)
  canonicalRequest : String
  stringToSign : String
  signature : String
  authorizationHeader : String
deriving DecidableEq

/-- `KvsClient._generate_headers`, as a pure function of the one captured
`datetime.datetime.utcnow()` instant `t`, the one captured `time.time()`
string `start_timestamp`, and the client state. -/
def generate_headers (t : UTCTime) (start_timestamp : String)
    (host region stream_name secret_key access_key : String) : GeneratedRequest :=
  let amz_date := strftimeAmzDate t
  let date_stamp := strftimeDateStamp t
  let cr := canonical_request host stream_name amz_date start_timestamp
  let scope := credential_scope date_stamp region
  let hashed_canonical_request := sha256Hex (utf8 cr)
  let sts := string_to_sign amz_date scope hashed_canonical_request
  let signing_key := get_signature_key secret_key date_stamp region kinesis_video_service_name
  let signature := hmacSha256Hex signing_key (utf8 sts)
  let authorization_header :=
    algorithm ++ " " ++ "Credential=" ++ access_key ++ "/" ++ scope ++ ", "
      ++ "SignedHeaders=" ++ signed_headers ++ ", " ++ "Signature=" ++ signature
  { headers :=
      [("Accept", "*/*"),
       ("Authorization", authorization_header),
       ("connection", "keep-alive"),
       ("content-type", "application/json"),
       ("transfer-encoding", "chunked"),
       ("user-agent", user_agent),
       ("x-amz-date", amz_date),
       ("x-amzn-fragment-acknowledgment-required", "1"),
       ("x-amzn-fragment-timecode-type", "ABSOLUTE"),
       ("x-amzn-producer-start-timestamp", start_timestamp),
       ("x-amzn-stream-name", stream_name),
       ("Expect", "100-continue")],
    canonicalRequest := cr,
    stringToSign := sts,
    signature := signature,
    authorizationHeader := authorization_header }

end KvsClient

/-! ## The chunk generator -/

/-- The state of a `ChunkGenerator`: the configured chunk size, the bytes
read from the file, the read pointer and the recorded size. -/
structure ChunkGenerator where
  chunkSize : Nat
  data : List Byte
  pointer : Nat
  size : Nat
deriving DecidableEq

/-- `ChunkGenerator.__init__` over already-read file bytes. -/
def ChunkGenerator.fromData (data : List Byte) (chunk_size : Nat) : ChunkGenerator :=
  { chunkSize := chunk_size, data := data, pointer := 0, size := data.length }

/-- `ChunkGenerator.__next__`: `none` models `StopIteration` (the state is
returned unchanged in that case, as the Python method mutates nothing
before raising). -/
def ChunkGenerator.next (g : ChunkGenerator) : Option (List Byte) × ChunkGenerator :=
  if g.size ≤ g.pointer then (none, g)
  else
    let csz := min g.chunkSize (g.size - g.pointer)
    (some ((g.data.drop g.pointer).take csz),
      { g with pointer := g.pointer + csz })

/-- Drive the generator for at most `fuel` reads, collecting the yielded
chunks and the final state. -/
def ChunkGenerator.run : Nat → ChunkGenerator → List (List Byte) × ChunkGenerator
  | 0, g => ([], g)
  | fuel + 1, g =>
    match g.next with
    | (none, g1) => ([], g1)
    | (some c, g1) =>
      let out := ChunkGenerator.run fuel g1
      (c :: out.1, out.2)

/-! ## Response parsing and initialise -/

namespace KvsClient

/-- The response loop of `put_media`: for each line of the split response
text, lines starting with a left brace are passed to `json.loads` and the
result appended; other lines are skipped; a `loads` failure propagates. -/
def putMediaParseLoop {α : Type} (loads : String → Except String α) :
    List String → List α → Except String (List α)
  | [], result => .ok result
  | line :: rest, result =>
    if pyStartsWith line "\x7b" then
      match loads line with
      | .ok data => putMediaParseLoop loads rest (result ++ [data])
      | .error e => .error e
    else putMediaParseLoop loads rest result

/-- The response parsing of `put_media` (`response.text.split("\n")` then
the filter-and-parse loop), with `json.loads` abstracted as `loads`. -/
def put_media_parse {α : Type} (loads : String → Except String α) (text : String) :
    Except String (List α) :=
  putMediaParseLoop loads (pySplit text '\n') []

/-- The client state `initialise` establishes. -/
structure ClientState where
  dataEndpoint : String
  dataEndpointHost : String
  dataEndpointRegion : String
  putMediaEndpoint : String
deriving DecidableEq

/-- The tail of `initialise`: resolve host and region from the data
endpoint and record the put-media endpoint. -/
def resolveEndpointState (data_endpoint : String) : Except PyError ClientState :=
  match get_host_from_endpoint data_endpoint with
  | .error e => .error e
  | .ok host =>
    match get_region_from_endpoint data_endpoint with
    | .error e => .error e
    | .ok region =>
        .ok { dataEndpoint := data_endpoint,
              dataEndpointHost := host,
              dataEndpointRegion := region,
              putMediaEndpoint := data_endpoint ++ "/putMedia" }

/-- `KvsClient.initialise`, as a function of the outcome of the
`create_stream` call (`Except.error code` models a botocore `ClientError`
with that error code) and of the data endpoint the control plane returns:
a `ResourceInUseException` is logged and treated as success, any other
client error is re-raised. -/
def initialise (create_stream_result : Except String Unit) (data_endpoint : String) :
    Except PyError ClientState :=
  match create_stream_result with
  | .ok _ => resolveEndpointState data_endpoint
  | .error code =>
      if code = "ResourceInUseException" then resolveEndpointState data_endpoint
      else .error (.clientError code)

end KvsClient

/-! ## main.py -/

namespace MainPy

/-- main.py `sign`. -/
def sign (key : List Byte) (msg : String) : List Byte :=
  hmacSha256 key (utf8 msg)

/-- main.py `get_signature_key`. -/
def get_signature_key (key date_stamp regionName serviceName : String) : List Byte :=
  let kDate := sign (utf8 ("AWS4" ++ key)) date_stamp
  let kRegion := sign kDate regionName
  let kService := sign kRegion serviceName
  sign kService "aws4_request"

/-- main.py `get_host_from_endpoint`: returns `None` (not an error) when
the scheme prefix is missing. -/
def get_host_from_endpoint (endpoint : String) : Option String :=
  if pyStartsWith endpoint "https://" then some (pyDrop endpoint 8) else none

/-- main.py `get_region_from_endpoint`: returns `None` when the scheme
prefix is missing; on a well-prefixed input, label `[2]` of the dot-split
host (a Python `IndexError` if there are fewer than three labels). -/
def get_region_from_endpoint (endpoint : String) : Except PyError (Option String) :=
  if pyStartsWith endpoint "https://" then
    match (pySplit (pyDrop endpoint 8) '.').get? 2 with
    | some r => .ok (some r)
    | none => .error .indexError
  else .ok none

/-- main.py `canonical_headers`, built by successive `+=` of one line
(with its trailing newline) at a time. -/
def canonical_headers (host amz_date start_tmstp stream_name : String) : String :=
  "connection:keep-alive\n"
  ++ "content-type:application/json\n"
  ++ ("host:" ++ host ++ "\n")
  ++ "transfer-encoding:chunked\n"
  ++ "user-agent:AWS-SDK-KVS/2.0.2 GCC/7.4.0 Linux/4.15.0-46-generic x86_64\n"
  ++ ("x-amz-date:" ++ amz_date ++ "\n")
  ++ "x-amzn-fragment-acknowledgment-required:1\n"
  ++ "x-amzn-fragment-timecode-type:ABSOLUTE\n"
  ++ ("x-amzn-producer-start-timestamp:" ++ start_tmstp ++ "\n")
  ++ ("x-amzn-stream-name:" ++ stream_name ++ "\n")

/-- main.py `signed_headers`, built from three string pieces. -/
def signed_headers : String :=
  "connection;content-type;host;transfer-encoding;user-agent;"
  ++ "x-amz-date;x-amzn-fragment-acknowledgment-required;"
  ++ "x-amzn-fragment-timecode-type;x-amzn-producer-start-timestamp;x-amzn-stream-name"

/-- main.py `canonical_request`, built by `+` concatenation. -/
def canonical_request (host stream_name amz_date start_tmstp : String) : String :=
  "POST" ++ "\n" ++ "/putMedia" ++ "\n" ++ "" ++ "\n"
  ++ canonical_headers host amz_date start_tmstp stream_name ++ "\n"
  ++ signed_headers ++ "\n" ++ sha256Hex (utf8 "")

/-- main.py `credential_scope`. -/
def credential_scope (date_stamp region : String) : String :=
  date_stamp ++ "/" ++ region ++ "/" ++ "kinesisvideo" ++ "/" ++ "aws4_request"

/-- main.py `string_to_sign`. -/
def string_to_sign (amz_date scope hashed : String) : String :=
  "AWS4-HMAC-SHA256" ++ "\n" ++ amz_date ++ "\n" ++ scope ++ "\n" ++ hashed

end MainPy

/-! ## Spec-side definitions

These definitions follow the wording of the specification; the claim
theorems compare them with the definitions embedded from the source. -/

/-- The derived signing key as the spec words it: the seed key is the
UTF-8 bytes of "AWS4" concatenated with the secret, then the chain
HMAC-SHA256s the date stamp, then the region, then the service, then the
literal "aws4_request". -/
def derive_signing_key (secret date_stamp region service : String) : List Byte :=
  hmacSha256
    (hmacSha256
      (hmacSha256
        (hmacSha256 (utf8 ("AWS4" ++ secret)) (utf8 date_stamp))
        (utf8 region))
      (utf8 service))
    (utf8 "aws4_request")

/-- The canonical request as the spec words it: METHOD, URI, QUERYSTRING,
the canonical header block followed by a blank line, SIGNED_HEADERS, and
the SHA-256 hex digest of the empty string as the body hash, all
newline-separated. -/
def spec_canonical_request (host stream_name amz_date start_timestamp : String) : String :=
  "POST" ++ "\n" ++ "/putMedia" ++ "\n" ++ "" ++ "\n"
    ++ pyJoin "\n" (KvsClient.canonical_headers_lines host amz_date start_timestamp stream_name)
    ++ "\n" ++ "\n"
    ++ KvsClient.signed_headers ++ "\n" ++ sha256Hex (utf8 "")

/-- The string to sign as the spec words it: "AWS4-HMAC-SHA256", amz_date,
the credential scope and the SHA-256 hex digest of the canonical request,
newline-joined. -/
def spec_string_to_sign (amz_date credential_scope hashed_canonical_request : String) : String :=
  "AWS4-HMAC-SHA256" ++ "\n" ++ amz_date ++ "\n" ++ credential_scope
    ++ "\n" ++ hashed_canonical_request

/-- The header name of one canonical-header line: everything before the
first colon. -/
def headerKey (line : String) : String :=
  (line.data.takeWhile (fun c => c != ':')).asString

/-- The header names reconstructed from the canonical header lines, in
emission order. -/
def headerKeysOfLines (lines : List String) : List String :=
  lines.map headerKey

/-- The header names reconstructed from the joined canonical header block:
split on newlines, drop the empty tail line, take each line's key. -/
def headerKeysOfBlock (block : String) : List String :=
  ((pySplit block '\n').filter (fun l => l != "")).map headerKey

/-- Sequential parsing of a list of lines as the spec words the ack-record
extraction: each line parsed in order, the first parse failure
propagating. Applied to the brace-filtered lines it is the specification
of `put_media`'s response parsing. -/
def parseBraceLines {α : Type} (loads : String → Except String α) :
    List String → Except String (List α)
  | [] => .ok []
  | line :: rest =>
    match loads line with
    | .error e => .error e
    | .ok v =>
      match parseBraceLines loads rest with
      | .error e => .error e
      | .ok vs => .ok (v :: vs)

/-! ## Helper lemmas -/

/-- The response loop with accumulator `acc` prepends `acc` to the
sequential parse of the brace-prefixed lines. -/
theorem putMediaParseLoop_eq {α : Type} (loads : String → Except String α) :
    ∀ (lines : List String) (acc : List α),
      KvsClient.putMediaParseLoop loads lines acc
        = Except.map (fun r => acc ++ r)
            (parseBraceLines loads (lines.filter (fun l => pyStartsWith l "\x7b"))) := by
  intro lines
  induction lines with
  | nil => intro acc; simp [KvsClient.putMediaParseLoop, parseBraceLines, Except.map]
  | cons line rest ih =>
    intro acc
    by_cases hl : pyStartsWith line "\x7b"
    · cases hload : loads line with
      | error e =>
        simp [KvsClient.putMediaParseLoop, hl, hload, parseBraceLines, Except.map]
      | ok d =>
        simp only [KvsClient.putMediaParseLoop, hl, if_true, hload, List.filter_cons_of_pos,
          parseBraceLines, ih (acc ++ [d])]
        cases parseBraceLines loads (rest.filter (fun l => pyStartsWith l "\x7b")) with
        | error e => simp [Except.map]
        | ok vs => simp [Except.map]
    · simp [KvsClient.putMediaParseLoop, hl, ih acc]

/-- Running the generator for four steps when the first three reads yield
chunks and the fourth signals exhaustion. -/
theorem ChunkGenerator.run4_eq (g g1 g2 g3 : ChunkGenerator) (c1 c2 c3 : List Byte)
    (h1 : g.next = (some c1, g1)) (h2 : g1.next = (some c2, g2))
    (h3 : g2.next = (some c3, g3)) (h4 : g3.next = (none, g3)) :
    ChunkGenerator.run 4 g = ([c1, c2, c3], g3) := by
  simp [ChunkGenerator.run, h1, h2, h3, h4]

/-- The generator's run, given enough fuel, concatenates back to the
unread suffix of the data, is empty exactly on an exhausted state, and
yields only full-size chunks before the last one. -/
theorem ChunkGenerator.run_spec (fuel : Nat) :
    ∀ g : ChunkGenerator, g.size = g.data.length → g.pointer ≤ g.size →
      0 < g.chunkSize → g.size - g.pointer ≤ fuel →
      ((ChunkGenerator.run fuel g).1.flatten = g.data.drop g.pointer
        ∧ ((ChunkGenerator.run fuel g).1 = [] ↔ g.size ≤ g.pointer)
        ∧ ∀ i, i + 1 < (ChunkGenerator.run fuel g).1.length →
            ((ChunkGenerator.run fuel g).1.getD i []).length = g.chunkSize) := by
  induction fuel with
  | zero =>
    intro g hsize hp hc hf
    have hle : g.size ≤ g.pointer := Nat.le_of_sub_eq_zero (Nat.le_zero.mp hf)
    refine ⟨?_, ?_, ?_⟩
    · simp [ChunkGenerator.run]
      omega
    · simp [ChunkGenerator.run, hle]
    · intro i hi; simp [ChunkGenerator.run] at hi
  | succ n ih =>
    intro g hsize hp hc hf
    by_cases hle : g.size ≤ g.pointer
    · have hnext : g.next = (none, g) := by simp [ChunkGenerator.next, hle]
      refine ⟨?_, ?_, ?_⟩
      · simp [ChunkGenerator.run, hnext]
        omega
      · simp [ChunkGenerator.run, hnext, hle]
      · intro i hi; simp [ChunkGenerator.run, hnext] at hi
    · have hlt : g.pointer < g.size := Nat.lt_of_not_le hle
      set csz := min g.chunkSize (g.size - g.pointer) with hcsz
      have hcszpos : 0 < csz := lt_min hc (Nat.sub_pos_of_lt hlt)
      have hcszle : csz ≤ g.size - g.pointer := min_le_right _ _
      have hnext : g.next = (some ((g.data.drop g.pointer).take csz),
          { g with pointer := g.pointer + csz }) := by
        simp [ChunkGenerator.next, hle, hcsz]
      have hrun : ChunkGenerator.run (n + 1) g
          = ((g.data.drop g.pointer).take csz
                :: (ChunkGenerator.run n { g with pointer := g.pointer + csz }).1,
             (ChunkGenerator.run n { g with pointer := g.pointer + csz }).2) := by
        simp [ChunkGenerator.run, hnext]
      have hp2 : g.pointer + csz ≤ g.size := by omega
      have hf2 : g.size - (g.pointer + csz) ≤ n := by omega
      obtain ⟨ihf, ihe, ihl⟩ := ih { g with pointer := g.pointer + csz } hsize hp2 hc hf2
      refine ⟨?_, ?_, ?_⟩
      · rw [hrun]
        simp only [List.flatten_cons, ihf]
        have hdd : g.data.drop (g.pointer + csz) = (g.data.drop g.pointer).drop csz := by
          rw [List.drop_drop]
        rw [hdd, List.take_append_drop]
      · rw [hrun]; simp [hle]
      · rw [hrun]
        intro i hi
        match i with
        | 0 =>
          simp only [List.getD_cons_zero]
          have hne : (ChunkGenerator.run n { g with pointer := g.pointer + csz }).1 ≠ [] := by
            simp at hi
            intro hnil
            rw [hnil] at hi
            simp at hi
          have hlt2 : g.pointer + csz < g.size := by
            by_contra hge
            exact hne (ihe.mpr (Nat.le_of_not_lt hge))
          have hcsze : csz = g.chunkSize := by
            have hstrict : csz < g.size - g.pointer := by omega
            omega
          rw [List.length_take, List.length_drop]
          omega
        | i + 1 =>
          simp only [List.getD_cons_succ]
          apply ihl
          simp at hi
          omega

/-! ## The claims -/

/-- Claim C1: for every secret key, date stamp, region name and service
name, the derived signing key of both source variants
(`KvsClient.get_signature_key` and main.py's `get_signature_key`) is the
four-rung HMAC-SHA256 chain over the UTF-8 bytes of "AWS4"+secret, the
date stamp, the region, the service and the literal "aws4_request"; being
a pure function of its four inputs, it is deterministic and bit-for-bit
reproducible. The closed conjunct evaluates the chain on the published
SigV4 example inputs to its known 32 bytes. -/
theorem claim_C1 :
    (∀ secret date_stamp region service : String,
        KvsClient.get_signature_key secret date_stamp region service
            = derive_signing_key secret date_stamp region service
          ∧ MainPy.get_signature_key secret date_stamp region service
            = derive_signing_key secret date_stamp region service)
    ∧ derive_signing_key "wJalrXUtnFEMI/K7MDENG+bPxRfiCYEXAMPLEKEY" "20120215" "us-east-1" "iam"
        = [244, 120, 14, 45, 159, 101, 250, 137, 95, 156, 103, 179, 44, 225, 186, 240,
           176, 216, 164, 53, 5, 160, 0, 161, 169, 224, 144, 212, 20, 219, 64, 77] :=
  ⟨fun _ _ _ _ => ⟨rfl, rfl⟩, by decide⟩

/-- Claim C2: for every input tuple, the canonical request built by the
source is exactly METHOD, URI, QUERYSTRING, the canonical header block
followed by a blank line, SIGNED_HEADERS and the SHA-256 hex digest of the
empty string (never of the streamed body — the builder takes no body at
all), newline-separated; the string to sign is exactly "AWS4-HMAC-SHA256",
amz_date, the credential scope and the hex digest of the canonical
request, newline-joined; the main.py variant builds the same strings; and
the body-hash constant is the well-known empty-string SHA-256 digest. -/
theorem claim_C2 :
    (∀ host stream_name amz_date start_timestamp : String,
        KvsClient.canonical_request host stream_name amz_date start_timestamp
            = spec_canonical_request host stream_name amz_date start_timestamp
          ∧ MainPy.canonical_request host stream_name amz_date start_timestamp
            = KvsClient.canonical_request host stream_name amz_date start_timestamp)
    ∧ (∀ amz_date scope hashed : String,
        KvsClient.string_to_sign amz_date scope hashed
            = spec_string_to_sign amz_date scope hashed
          ∧ MainPy.string_to_sign amz_date scope hashed
            = KvsClient.string_to_sign amz_date scope hashed)
    ∧ sha256Hex (utf8 "")
        = "e3b0c44298fc1c149afbf4c8996fb92427ae41e4649b934ca495991b7852b855" := by
  refine ⟨fun host stream_name amz_date start_timestamp => ⟨?_, ?_⟩,
    fun amz_date scope hashed => ⟨?_, ?_⟩, by decide⟩
  · simp [KvsClient.canonical_request, KvsClient.canonical_headers, pyJoin,
      KvsClient.canonical_uri, KvsClient.canonical_querystring, spec_canonical_request,
      String.append_assoc]
    rfl
  · simp [KvsClient.canonical_request, KvsClient.canonical_headers, pyJoin,
      KvsClient.canonical_uri, KvsClient.canonical_querystring, String.append_assoc,
      MainPy.canonical_request, MainPy.canonical_headers, MainPy.signed_headers,
      KvsClient.signed_headers, KvsClient.signed_headers_list,
      KvsClient.canonical_headers_lines]
    rfl
  · simp [KvsClient.string_to_sign, spec_string_to_sign, pyJoin, KvsClient.algorithm,
      String.append_assoc]
  · simp [KvsClient.string_to_sign, MainPy.string_to_sign, pyJoin, KvsClient.algorithm,
      String.append_assoc]

/-- Claim C3: for every generated request, the header names reconstructed
from the canonical header lines' keys, in emission order, equal the
semicolon-split of the separately maintained signed-headers string, and
both are exactly the ten fixed header names; the closed conjunct checks
the reconstruction from the joined header block itself on concrete
values. -/
theorem claim_C3 :
    (∀ host amz_date start_timestamp stream_name : String,
        headerKeysOfLines
            (KvsClient.canonical_headers_lines host amz_date start_timestamp stream_name)
          = KvsClient.signed_headers_list)
    ∧ pySplit KvsClient.signed_headers ';' = KvsClient.signed_headers_list
    ∧ KvsClient.signed_headers_list
        = ["connection", "content-type", "host", "transfer-encoding", "user-agent",
           "x-amz-date", "x-amzn-fragment-acknowledgment-required",
           "x-amzn-fragment-timecode-type", "x-amzn-producer-start-timestamp",
           "x-amzn-stream-name"]
    ∧ headerKeysOfBlock
        (KvsClient.canonical_headers "host.example" "20240101T000000Z" "1700000000.0" "my-stream")
        = KvsClient.signed_headers_list :=
  ⟨fun _ _ _ _ => rfl, rfl, rfl, rfl⟩

/-- Claim C4: `_generate_headers` captures one instant `t` (and one
`time.time()` string), and every timestamp it emits is derived from that
single capture: the emitted x-amz-date header equals the amz_date inside
the string to sign, the credential scope and the signing key use the date
stamp of the same instant, the signature is computed over exactly that
string to sign, and the producer start timestamp appears identically in
the emitted header and in the canonical header block. -/
theorem claim_C4 (t : UTCTime)
    (start_timestamp host region stream_name secret_key access_key : String) :
    (KvsClient.generate_headers t start_timestamp host region stream_name secret_key
        access_key).headers.lookup "x-amz-date" = some (strftimeAmzDate t)
    ∧ (KvsClient.generate_headers t start_timestamp host region stream_name secret_key
        access_key).stringToSign
        = KvsClient.string_to_sign (strftimeAmzDate t)
            (KvsClient.credential_scope (strftimeDateStamp t) region)
            (sha256Hex (utf8 (KvsClient.generate_headers t start_timestamp host region
              stream_name secret_key access_key).canonicalRequest))
    ∧ (KvsClient.generate_headers t start_timestamp host region stream_name secret_key
        access_key).canonicalRequest
        = KvsClient.canonical_request host stream_name (strftimeAmzDate t) start_timestamp
    ∧ (KvsClient.generate_headers t start_timestamp host region stream_name secret_key
        access_key).signature
        = hmacSha256Hex
            (KvsClient.get_signature_key secret_key (strftimeDateStamp t) region
              KvsClient.kinesis_video_service_name)
            (utf8 (KvsClient.generate_headers t start_timestamp host region stream_name
              secret_key access_key).stringToSign)
    ∧ (KvsClient.generate_headers t start_timestamp host region stream_name secret_key
        access_key).headers.lookup "x-amzn-producer-start-timestamp" = some start_timestamp
    ∧ (KvsClient.canonical_headers_lines host (strftimeAmzDate t) start_timestamp
        stream_name).getD 8 ""
        = "x-amzn-producer-start-timestamp:" ++ start_timestamp
    ∧ (KvsClient.generate_headers t start_timestamp host region stream_name secret_key
        access_key).authorizationHeader
        = KvsClient.algorithm ++ " " ++ "Credential=" ++ access_key ++ "/"
            ++ KvsClient.credential_scope (strftimeDateStamp t) region ++ ", "
            ++ "SignedHeaders=" ++ KvsClient.signed_headers ++ ", " ++ "Signature="
            ++ (KvsClient.generate_headers t start_timestamp host region stream_name
              secret_key access_key).signature :=
  ⟨rfl, rfl, rfl, rfl, rfl, rfl, rfl⟩

/-- Claim C5: on the sample endpoint, host extraction returns the
substring after "https://" and region extraction returns the third
dot-delimited label, in both source variants. -/
theorem claim_C5 :
    KvsClient.get_host_from_endpoint
        "https://s-ca658586.kinesisvideo.ap-southeast-2.amazonaws.com"
      = Except.ok "s-ca658586.kinesisvideo.ap-southeast-2.amazonaws.com"
    ∧ KvsClient.get_region_from_endpoint
        "https://s-ca658586.kinesisvideo.ap-southeast-2.amazonaws.com"
      = Except.ok "ap-southeast-2"
    ∧ MainPy.get_host_from_endpoint
        "https://s-ca658586.kinesisvideo.ap-southeast-2.amazonaws.com"
      = some "s-ca658586.kinesisvideo.ap-southeast-2.amazonaws.com"
    ∧ MainPy.get_region_from_endpoint
        "https://s-ca658586.kinesisvideo.ap-southeast-2.amazonaws.com"
      = Except.ok (some "ap-southeast-2") :=
  ⟨rfl, rfl, rfl, rfl⟩

/-- Claim C6, amended: for every input not starting with "https://", the
`KvsClient` host and region extractors raise `ValueError` (a hard
precondition error), but the main.py module-level variants cited by the
claim instead return the fallback `None` without raising. -/
theorem claim_C6 (endpoint : String) (h : pyStartsWith endpoint "https://" = false) :
    KvsClient.get_host_from_endpoint endpoint
        = Except.error (PyError.valueError "Endpoint must start with https://")
      ∧ KvsClient.get_region_from_endpoint endpoint
        = Except.error (PyError.valueError "Endpoint must start with https://")
      ∧ MainPy.get_host_from_endpoint endpoint = none
      ∧ MainPy.get_region_from_endpoint endpoint = Except.ok none := by
  simp [KvsClient.get_host_from_endpoint, KvsClient.get_region_from_endpoint,
    MainPy.get_host_from_endpoint, MainPy.get_region_from_endpoint, h]

/-- Claim C6, counterexample: on the schemeless input "my-stream", the
main.py host and region extractors return the fallback `None` — they do
not raise, contradicting the claim that both variants fail with a
precondition error rather than returning a fallback value such as None. -/
theorem claim_C6_counterexample :
    MainPy.get_host_from_endpoint "my-stream" = none
      ∧ MainPy.get_region_from_endpoint "my-stream" = Except.ok none :=
  ⟨rfl, rfl⟩

/-- Witness for the amended claim C6 at the concrete input "kinesis". -/
theorem claim_C6_witness :
    pyStartsWith "kinesis" "https://" = false
      ∧ (KvsClient.get_host_from_endpoint "kinesis"
            = Except.error (PyError.valueError "Endpoint must start with https://")
          ∧ KvsClient.get_region_from_endpoint "kinesis"
            = Except.error (PyError.valueError "Endpoint must start with https://")
          ∧ MainPy.get_host_from_endpoint "kinesis" = none
          ∧ MainPy.get_region_from_endpoint "kinesis" = Except.ok none) :=
  ⟨rfl, claim_C6 "kinesis" rfl⟩

/-- Claim C7: over any 35000-byte source with chunk size 16000 the
generator yields exactly three chunks, of lengths 16000, 16000 and 3000 in
that order, and the resulting state signals exhaustion; the exhausted
state is returned unchanged by `next`, so every subsequent read signals
end-of-sequence again rather than restarting. -/
theorem claim_C7 (data : List Byte) (h : data.length = 35000) :
    ChunkGenerator.run 4 (ChunkGenerator.fromData data 16000)
        = ([data.take 16000, (data.drop 16000).take 16000, (data.drop 32000).take 3000],
           ⟨16000, data, 35000, 35000⟩)
      ∧ (ChunkGenerator.run 4 (ChunkGenerator.fromData data 16000)).1.map List.length
          = [16000, 16000, 3000]
      ∧ (⟨16000, data, 35000, 35000⟩ : ChunkGenerator).next
          = (none, ⟨16000, data, 35000, 35000⟩) := by
  have s4 : (⟨16000, data, 35000, 35000⟩ : ChunkGenerator).next
      = (none, ⟨16000, data, 35000, 35000⟩) := by
    rw [ChunkGenerator.next]; norm_num
  have s1 : (ChunkGenerator.fromData data 16000).next
      = (some (data.take 16000), ⟨16000, data, 16000, 35000⟩) := by
    rw [ChunkGenerator.next]; norm_num [ChunkGenerator.fromData, h]
  have s2 : (⟨16000, data, 16000, 35000⟩ : ChunkGenerator).next
      = (some ((data.drop 16000).take 16000), ⟨16000, data, 32000, 35000⟩) := by
    rw [ChunkGenerator.next]; norm_num
  have s3 : (⟨16000, data, 32000, 35000⟩ : ChunkGenerator).next
      = (some ((data.drop 32000).take 3000), ⟨16000, data, 35000, 35000⟩) := by
    rw [ChunkGenerator.next]; norm_num
  have e := ChunkGenerator.run4_eq _ _ _ _ _ _ _ s1 s2 s3 s4
  refine ⟨e, ?_, s4⟩
  rw [e]
  norm_num [List.length_take, List.length_drop, h]

/-- Witness for claim C7 on the concrete 35000-byte source of zeros. -/
theorem claim_C7_witness :
    (List.replicate 35000 (0 : Byte)).length = 35000
      ∧ (ChunkGenerator.run 4 (ChunkGenerator.fromData (List.replicate 35000 (0 : Byte)) 16000)
            = ([(List.replicate 35000 (0 : Byte)).take 16000,
                ((List.replicate 35000 (0 : Byte)).drop 16000).take 16000,
                ((List.replicate 35000 (0 : Byte)).drop 32000).take 3000],
               ⟨16000, List.replicate 35000 (0 : Byte), 35000, 35000⟩)
          ∧ (ChunkGenerator.run 4
              (ChunkGenerator.fromData (List.replicate 35000 (0 : Byte)) 16000)).1.map List.length
              = [16000, 16000, 3000]
          ∧ (⟨16000, List.replicate 35000 (0 : Byte), 35000, 35000⟩ : ChunkGenerator).next
              = (none, ⟨16000, List.replicate 35000 (0 : Byte), 35000, 35000⟩)) :=
  ⟨by rw [List.length_replicate], claim_C7 (List.replicate 35000 (0 : Byte))
    (by rw [List.length_replicate])⟩

/-- Claim C8: for every response text, the parsing of `put_media` yields
exactly the lines that begin with a left brace, passed to `json.loads` in
input order, and drops every other line without attempting to parse it;
on the sample response it yields exactly the two ack records in order. -/
theorem claim_C8 :
    (∀ (α : Type) (loads : String → Except String α) (text : String),
        KvsClient.put_media_parse loads text
          = parseBraceLines loads
              ((pySplit text '\n').filter (fun l => pyStartsWith l "\x7b")))
    ∧ KvsClient.put_media_parse (fun s => Except.ok s)
        "\x7b\"FragmentNumber\":\"1\"\x7d\nnoise\n\x7b\"FragmentNumber\":\"2\"\x7d\n"
        = Except.ok ["\x7b\"FragmentNumber\":\"1\"\x7d", "\x7b\"FragmentNumber\":\"2\"\x7d"] := by
  constructor
  · intro α loads text
    rw [KvsClient.put_media_parse, putMediaParseLoop_eq]
    cases parseBraceLines loads ((pySplit text '\n').filter (fun l => pyStartsWith l "\x7b")) with
    | error e => simp [Except.map]
    | ok vs => simp [Except.map]
  · rfl

/-- Claim C9: `initialise` treats a `ResourceInUseException` from the
provisioning call exactly as success, any other client-error code is
re-raised, and two successive calls against an already-existing stream
(the first provisioning call succeeding or already-exists, the second
already-exists) both succeed and resolve the same endpoint state. -/
theorem claim_C9 :
    (∀ data_endpoint : String,
        KvsClient.initialise (Except.error "ResourceInUseException") data_endpoint
          = KvsClient.initialise (Except.ok ()) data_endpoint)
    ∧ (∀ code : String, code ≠ "ResourceInUseException" → ∀ data_endpoint : String,
        KvsClient.initialise (Except.error code) data_endpoint
          = Except.error (PyError.clientError code))
    ∧ KvsClient.initialise (Except.ok ())
          "https://s-ca658586.kinesisvideo.ap-southeast-2.amazonaws.com"
        = Except.ok
            { dataEndpoint := "https://s-ca658586.kinesisvideo.ap-southeast-2.amazonaws.com",
              dataEndpointHost := "s-ca658586.kinesisvideo.ap-southeast-2.amazonaws.com",
              dataEndpointRegion := "ap-southeast-2",
              putMediaEndpoint :=
                "https://s-ca658586.kinesisvideo.ap-southeast-2.amazonaws.com/putMedia" }
    ∧ KvsClient.initialise (Except.error "ResourceInUseException")
          "https://s-ca658586.kinesisvideo.ap-southeast-2.amazonaws.com"
        = Except.ok
            { dataEndpoint := "https://s-ca658586.kinesisvideo.ap-southeast-2.amazonaws.com",
              dataEndpointHost := "s-ca658586.kinesisvideo.ap-southeast-2.amazonaws.com",
              dataEndpointRegion := "ap-southeast-2",
              putMediaEndpoint :=
                "https://s-ca658586.kinesisvideo.ap-southeast-2.amazonaws.com/putMedia" } := by
  refine ⟨fun data_endpoint => rfl, fun code hc data_endpoint => ?_, rfl, rfl⟩
  simp [KvsClient.initialise, hc]

/-- Witness for claim C9 at a non-already-exists error code. -/
theorem claim_C9_witness :
    KvsClient.initialise (Except.error "AccessDeniedException") "https://a.b.c"
      = Except.error (PyError.clientError "AccessDeniedException") :=
  claim_C9.2.1 "AccessDeniedException" (by decide) "https://a.b.c"

/-- Claim C10: for every byte source and positive chunk size, the chunks
the generator yields concatenate back to exactly the source bytes, and
every chunk except possibly the last has exactly the configured size. -/
theorem claim_C10 (data : List Byte) (chunk_size : Nat) (hpos : 0 < chunk_size) :
    (ChunkGenerator.run data.length (ChunkGenerator.fromData data chunk_size)).1.flatten = data
    ∧ ∀ i, i + 1
          < (ChunkGenerator.run data.length (ChunkGenerator.fromData data chunk_size)).1.length →
        ((ChunkGenerator.run data.length
            (ChunkGenerator.fromData data chunk_size)).1.getD i []).length = chunk_size := by
  obtain ⟨hf, _, hl⟩ :=
    ChunkGenerator.run_spec data.length (ChunkGenerator.fromData data chunk_size)
      rfl (Nat.zero_le _) hpos (by simp [ChunkGenerator.fromData])
  exact ⟨by simpa [ChunkGenerator.fromData] using hf, hl⟩

/-- Witness for claim C10 on a five-byte source with chunk size two. -/
theorem claim_C10_witness :
    0 < 2
      ∧ ((ChunkGenerator.run (List.length ([1, 2, 3, 4, 5] : List Byte))
            (ChunkGenerator.fromData ([1, 2, 3, 4, 5] : List Byte) 2)).1.flatten
            = ([1, 2, 3, 4, 5] : List Byte)
          ∧ ∀ i, i + 1
                < (ChunkGenerator.run (List.length ([1, 2, 3, 4, 5] : List Byte))
                    (ChunkGenerator.fromData ([1, 2, 3, 4, 5] : List Byte) 2)).1.length →
              ((ChunkGenerator.run (List.length ([1, 2, 3, 4, 5] : List Byte))
                  (ChunkGenerator.fromData ([1, 2, 3, 4, 5] : List Byte) 2)).1.getD i []).length
                = 2) :=
  ⟨by decide, claim_C10 ([1, 2, 3, 4, 5] : List Byte) 2 (by decide)⟩

end Spec2Proof
